import Mathlib

/-
Verification of the rusty_webf_sys event/node binding layer
(src/bridge/rusty_webf_sys/src/{event,close_event,focus_event,node}.rs).

The Rust sources are a thin FFI binding: every operation forwards through a
per-type method table to a foreign (C++) runtime.  We embed the binding
functions as Lean functions over an explicit trace of foreign calls plus an
oracle giving the foreign side's reply to each call.  A reply may depend on
the position in the trace, which models foreign statefulness (in particular
an exception flag raised by the immediately preceding call).  Pointers are
modelled as natural-number addresses with 0 = null.  Rust panics (assert!,
unwrap) are modelled by the explicit `Res.panic` outcome; Rust `Result` by
`Except`.  Machinery that the sources reference but whose file is not part
of the sources (ExceptionState, EventTarget, UIEvent, CustomEvent, Window)
is modelled from the spec, as marked on each such definition.
-/

namespace WebF

/-- One call across the FFI boundary: a method-table function applied to a
receiver handle (each constructor records the table address, the receiver
handle and the remaining arguments), or a query on an exception-state
handle.  The constructor names are the method-table slot names of the
sources. -/
inductive FCall where
  | bubbles (table ptr : Nat)
  | cancel_bubble (table ptr : Nat)
  | set_cancel_bubble (table ptr : Nat) (value : Int) (es : Nat)
  | cancelable (table ptr : Nat)
  | current_target (table ptr : Nat)
  | default_prevented (table ptr : Nat)
  | src_element (table ptr : Nat)
  | target (table ptr : Nat)
  | is_trusted (table ptr : Nat)
  | time_stamp (table ptr : Nat)
  | type_ (table ptr : Nat)
  | init_event (table ptr : Nat) (ty : List Nat) (bubbles cancelable : Int) (es : Nat)
  | prevent_default (table ptr : Nat) (es : Nat)
  | stop_immediate_propagation (table ptr : Nat) (es : Nat)
  | stop_propagation (table ptr : Nat) (es : Nat)
  | release (table ptr : Nat)
  | dynamic_to (table ptr : Nat) (tag : Nat)
  | code (table ptr : Nat)
  | reason (table ptr : Nat)
  | was_clean (table ptr : Nat)
  | detail (table ptr : Nat)
  | view (table ptr : Nat)
  | which (table ptr : Nat)
  | related_target (table ptr : Nat)
  | append_child (table ptr newPtr es : Nat)
  | remove_node (table ptr targetPtr es : Nat)
  | has_exception (es : Nat)
  | stringify (es ctx : Nat)
  deriving DecidableEq, Repr

/-- The receiver handle an FCall forwards (its first pointer argument). -/
def FCall.selfPtr : FCall → Nat
  | .bubbles _ p => p
  | .cancel_bubble _ p => p
  | .set_cancel_bubble _ p _ _ => p
  | .cancelable _ p => p
  | .current_target _ p => p
  | .default_prevented _ p => p
  | .src_element _ p => p
  | .target _ p => p
  | .is_trusted _ p => p
  | .time_stamp _ p => p
  | .type_ _ p => p
  | .init_event _ p _ _ _ _ => p
  | .prevent_default _ p _ => p
  | .stop_immediate_propagation _ p _ => p
  | .stop_propagation _ p _ => p
  | .release _ p => p
  | .dynamic_to _ p _ => p
  | .code _ p => p
  | .reason _ p => p
  | .was_clean _ p => p
  | .detail _ p => p
  | .view _ p => p
  | .which _ p => p
  | .related_target _ p => p
  | .append_child _ p _ _ => p
  | .remove_node _ p _ _ => p
  | .has_exception e => e
  | .stringify e _ => e

/-- Is the call a `release` (destructor notification) call? -/
def FCall.isRelease : FCall → Bool
  | .release _ _ => true
  | _ => false

/-- The `RustValue` struct the foreign side returns for calls that vend a
new object: a handle, a method-table pointer and a disposal-status
reference (all addresses, 0 = null). -/
structure RustValueR where
  value : Nat
  method_pointer : Nat
  status : Nat
  deriving DecidableEq, Repr

/-- The foreign side's behaviour, one component per ABI return type.  Each
reply may depend on the position in the call trace (first argument), which
models foreign state evolving between calls: in particular whether the
exception flag reads true at the position right after a fallible call.
`disposedFlag` is the foreign-owned shared liveness flag per status
address; `etTableField` is the contents of the `event_target` table-pointer
field of a `NodeRustMethods` table at a given table address. -/
structure Oracle where
  intR : Nat → FCall → Int
  f64R : Nat → FCall → Int
  bytesR : Nat → FCall → List Nat
  boolR : Nat → FCall → Bool
  strR : Nat → FCall → String
  rvR : Nat → FCall → RustValueR
  disposedFlag : Nat → Bool
  etTableField : Nat → Nat

/-- Interaction state: the fixed oracle plus the trace of foreign calls
made so far (oldest first). -/
structure St where
  oracle : Oracle
  trace : List FCall

/-- Outcome of running a binding operation: a normal return or a Rust
panic, each together with the interaction state reached. -/
inductive Res (α : Type) where
  | ok (a : α) (s : St)
  | panic (msg : String) (s : St)

/-- The interaction state an outcome ends in. -/
def Res.state {α : Type} : Res α → St
  | .ok _ s => s
  | .panic _ s => s

/-- Whether the outcome is a panic. -/
def Res.isPanic {α : Type} : Res α → Bool
  | .ok _ _ => false
  | .panic _ _ => true

/-- Record one foreign call in the trace. -/
def emit (c : FCall) (s : St) : St :=
  { s with trace := s.trace ++ [c] }

/-- Make a foreign call returning a 32- or 64-bit integer. -/
def callInt (c : FCall) (s : St) : Int × St :=
  (s.oracle.intR s.trace.length c, emit c s)

/-- Make a foreign call returning a C double (opaque pass-through value). -/
def callF64 (c : FCall) (s : St) : Int × St :=
  (s.oracle.f64R s.trace.length c, emit c s)

/-- Make a foreign call returning a NUL-terminated byte buffer (the bytes
before the terminator). -/
def callBytes (c : FCall) (s : St) : List Nat × St :=
  (s.oracle.bytesR s.trace.length c, emit c s)

/-- Make a foreign call returning a C bool. -/
def callBool (c : FCall) (s : St) : Bool × St :=
  (s.oracle.boolR s.trace.length c, emit c s)

/-- Make a foreign call returning a caller-side string. -/
def callStr (c : FCall) (s : St) : String × St :=
  (s.oracle.strR s.trace.length c, emit c s)

/-- Make a foreign call returning a RustValue triple. -/
def callRV (c : FCall) (s : St) : RustValueR × St :=
  (s.oracle.rvR s.trace.length c, emit c s)

/-- Modelled from the spec: exception_state.rs is not among the sources.
An exception state is a transient opaque handle created from the context;
the binding queries it for "has exception" and asks the context to render
it as text (spec sections 3 and 6). -/
structure ExceptionState where
  ptr : Nat

/-- Panic message of the `assert!` in `Event::context` (event.rs line 65). -/
def ctxAssertMsg : String := "Context PTR must not be null"

/-- Panic message of Option.unwrap on None (the `as_ref().unwrap()` of the
generated constructors). -/
def unwrapNoneMsg : String := "called Option.unwrap on a None value"

/-- Panic message of Result.unwrap on the CString interior-NUL error
(event.rs line 140). -/
def nulUnwrapMsg : String := "called Result.unwrap on an Err value: NulError"

/-- Panic message of Result.unwrap on the str::from_utf8 error raised by
`to_str().unwrap()` (event.rs line 136, close_event.rs line 52). -/
def utf8UnwrapMsg : String := "called Result.unwrap on an Err value: Utf8Error"

/-- Panic message of the disposal assert of the `as_*` downcasts
(event.rs lines 176/196/256 and siblings). -/
def disposedAssertMsg : String := "The underline C++ impl of this ptr had been disposed"

/-- `i32::from` on a Rust bool: 1 for true, 0 for false. -/
def i32_from (b : Bool) : Int := if b then 1 else 0

/-- `CString::new`: fails exactly when the byte sequence contains a NUL
byte (which is then interior, as the terminator is not yet appended). -/
def cstringNew (bytes : List Nat) : Option (List Nat) :=
  if bytes.contains 0 then none else some bytes

/-- UTF-8 validity of a byte sequence (RFC 3629, the check performed by
Rust's `str::from_utf8`).  `pending` counts continuation bytes still
expected; `lo`/`hi` bound the next byte when `pending > 0`. -/
def utf8Aux : List Nat → Nat → Nat → Nat → Bool
  | [], pending, _, _ => pending == 0
  | b :: rest, 0, _, _ =>
    if b < 128 then utf8Aux rest 0 0 0
    else if b < 194 then false
    else if b ≤ 223 then utf8Aux rest 1 128 191
    else if b = 224 then utf8Aux rest 2 160 191
    else if b ≤ 236 then utf8Aux rest 2 128 191
    else if b = 237 then utf8Aux rest 2 128 159
    else if b ≤ 239 then utf8Aux rest 2 128 191
    else if b = 240 then utf8Aux rest 3 144 191
    else if b ≤ 243 then utf8Aux rest 3 128 191
    else if b = 244 then utf8Aux rest 3 128 143
    else false
  | b :: rest, p + 1, lo, hi =>
    if lo ≤ b ∧ b ≤ hi then utf8Aux rest p 128 191 else false

/-- A byte sequence is valid UTF-8. -/
def utf8Valid (bytes : List Nat) : Bool := utf8Aux bytes 0 0 0

/-- `str::from_utf8` on the bytes of a C string: the same bytes on success
(a Rust `String` is exactly its UTF-8 bytes), failure otherwise. -/
def strFromUtf8 (bytes : List Nat) : Option (List Nat) :=
  if utf8Valid bytes then some bytes else none

/-- The `EventType` wire tag of CustomEvent (event.rs line 11). -/
def customEventTag : Nat := 1

/-- The `EventType` wire tag of CloseEvent (event.rs line 13). -/
def closeEventTag : Nat := 3

/-- The `EventType` wire tag of FocusEvent (event.rs line 19). -/
def focusEventTag : Nat := 9

/-- The address of the embedded parent-table field of a derived method
table at address `t`.  The derived tables are `repr(C)` records whose
first field is the 8-byte `version : c_double`, followed by the parent
table embedded by value (close_event.rs lines 9-16, focus_event.rs lines
9-13), so the parent sub-table lives at offset 8. -/
def subTableAddr (t : Nat) : Nat := t + 8

/-- The `Event` capability object (event.rs lines 46-51): an opaque
handle, a context reference, a method-table pointer and a shared
disposal-status reference, all addresses. -/
structure Event where
  ptr : Nat
  context : Nat
  method_pointer : Nat
  status : Nat
  deriving DecidableEq, Repr

/-- `Event::initialize` (event.rs lines 53-60): plain field assembly. -/
def Event.construct (ptr context method_pointer status : Nat) : Event :=
  ⟨ptr, context, method_pointer, status⟩

/-- `Event::context` (event.rs lines 64-67): asserts the context pointer
is non-null (`none` models the panic) and returns it. -/
def Event.context_ref (self : Event) : Option Nat :=
  if self.context = 0 then none else some self.context

/-- Modelled from the spec: event_target.rs is not among the sources.  An
EventTarget is a capability object of the same shape as Event (spec
section 3); `Event::current_target` (event.rs line 99) builds one from a
(handle, table, status) triple and the context. -/
structure EventTarget where
  ptr : Nat
  context : Nat
  method_pointer : Nat
  status : Nat
  deriving DecidableEq, Repr

/-- Modelled from the spec: the EventTarget constructor taking the full
returned triple plus the context, as called from event.rs line 99. -/
def EventTarget.construct (ptr context method_pointer status : Nat) : EventTarget :=
  ⟨ptr, context, method_pointer, status⟩

/-- Modelled from the spec: the older three-argument EventTarget
constructor used by node.rs line 93, which predates the status field; the
missing disposal-status reference is modelled as null. -/
def EventTarget.constructNoStatus (ptr context method_pointer : Nat) : EventTarget :=
  ⟨ptr, context, method_pointer, 0⟩

/-- `EventTarget::context`, modelled from the spec like `Event::context`:
assert non-null, then return the reference. -/
def EventTarget.context_ref (self : EventTarget) : Option Nat :=
  if self.context = 0 then none else some self.context

/-- The shared tail of every fallible binding call (event.rs lines 84-87
and the four identical repetitions): query the exception state right after
the foreign call; if it reports an exception, render it through the
context (asserting the context non-null) and fail with the rendered
message; otherwise succeed. -/
def checkException (ctxr : Option Nat) (es : ExceptionState) (s0 : St) : Res (Except String Unit) :=
  let hasExc := s0.oracle.boolR s0.trace.length (FCall.has_exception es.ptr)
  let s1 := emit (FCall.has_exception es.ptr) s0
  if hasExc then
    match ctxr with
    | none => Res.panic ctxAssertMsg s1
    | some ctx =>
      Res.ok (Except.error (s1.oracle.strR s1.trace.length (FCall.stringify es.ptr ctx)))
        (emit (FCall.stringify es.ptr ctx) s1)
  else
    Res.ok (Except.ok ()) s1

/-- `Event::bubbles` (event.rs lines 68-73): forward through the table,
normalize the returned i32 with `!= 0`. -/
def Event.bubbles (self : Event) (s : St) : Bool × St :=
  let r := callInt (FCall.bubbles self.method_pointer self.ptr) s
  (r.1 != 0, r.2)

/-- `Event::cancel_bubble` (event.rs lines 74-79). -/
def Event.cancel_bubble (self : Event) (s : St) : Bool × St :=
  let r := callInt (FCall.cancel_bubble self.method_pointer self.ptr) s
  (r.1 != 0, r.2)

/-- `Event::set_cancel_bubble` (event.rs lines 80-88): forward the bool as
`i32::from` (the C return value is discarded), then the exception tail. -/
def Event.set_cancel_bubble (self : Event) (value : Bool) (es : ExceptionState) (s : St) :
    Res (Except String Unit) :=
  checkException (Event.context_ref self) es
    ((callBool (FCall.set_cancel_bubble self.method_pointer self.ptr (i32_from value) es.ptr) s).2)

/-- `Event::cancelable` (event.rs lines 89-94). -/
def Event.cancelable (self : Event) (s : St) : Bool × St :=
  let r := callInt (FCall.cancelable self.method_pointer self.ptr) s
  (r.1 != 0, r.2)

/-- `Event::current_target` (event.rs lines 95-100): forward, then build
an EventTarget from the returned triple and `self.context()` (the context
assert runs after the call, when the constructor arguments are
evaluated). -/
def Event.current_target (self : Event) (s : St) : Res EventTarget :=
  let r := callRV (FCall.current_target self.method_pointer self.ptr) s
  match Event.context_ref self with
  | none => Res.panic ctxAssertMsg r.2
  | some ctx => Res.ok (EventTarget.construct r.1.value ctx r.1.method_pointer r.1.status) r.2

/-- `Event::default_prevented` (event.rs lines 101-106). -/
def Event.default_prevented (self : Event) (s : St) : Bool × St :=
  let r := callInt (FCall.default_prevented self.method_pointer self.ptr) s
  (r.1 != 0, r.2)

/-- `Event::src_element` (event.rs lines 107-112). -/
def Event.src_element (self : Event) (s : St) : Res EventTarget :=
  let r := callRV (FCall.src_element self.method_pointer self.ptr) s
  match Event.context_ref self with
  | none => Res.panic ctxAssertMsg r.2
  | some ctx => Res.ok (EventTarget.construct r.1.value ctx r.1.method_pointer r.1.status) r.2

/-- `Event::target` (event.rs lines 113-118). -/
def Event.target (self : Event) (s : St) : Res EventTarget :=
  let r := callRV (FCall.target self.method_pointer self.ptr) s
  match Event.context_ref self with
  | none => Res.panic ctxAssertMsg r.2
  | some ctx => Res.ok (EventTarget.construct r.1.value ctx r.1.method_pointer r.1.status) r.2

/-- `Event::is_trusted` (event.rs lines 119-124). -/
def Event.is_trusted (self : Event) (s : St) : Bool × St :=
  let r := callInt (FCall.is_trusted self.method_pointer self.ptr) s
  (r.1 != 0, r.2)

/-- `Event::time_stamp` (event.rs lines 125-130): a double passed through
unchanged. -/
def Event.time_stamp (self : Event) (s : St) : Int × St :=
  callF64 (FCall.time_stamp self.method_pointer self.ptr) s

/-- `Event::type_` (event.rs lines 131-137): forward, read the returned C
string, then `to_str().unwrap()`: panics when the foreign bytes are not
valid UTF-8. -/
def Event.type_ (self : Event) (s : St) : Res (List Nat) :=
  let r := callBytes (FCall.type_ self.method_pointer self.ptr) s
  match strFromUtf8 r.1 with
  | none => Res.panic utf8UnwrapMsg r.2
  | some v => Res.ok v r.2

/-- `Event::init_event` (event.rs lines 138-146): `CString::new(type_)
.unwrap()` panics on an interior NUL before any foreign call; otherwise
forward the bytes and the two bools as i32, then the exception tail. -/
def Event.init_event (self : Event) (ty : List Nat) (bubbles cancelable : Bool)
    (es : ExceptionState) (s : St) : Res (Except String Unit) :=
  match cstringNew ty with
  | none => Res.panic nulUnwrapMsg s
  | some bytes =>
    checkException (Event.context_ref self) es
      (emit (FCall.init_event self.method_pointer self.ptr bytes
        (i32_from bubbles) (i32_from cancelable) es.ptr) s)

/-- `Event::prevent_default` (event.rs lines 147-155). -/
def Event.prevent_default (self : Event) (es : ExceptionState) (s : St) :
    Res (Except String Unit) :=
  checkException (Event.context_ref self) es
    (emit (FCall.prevent_default self.method_pointer self.ptr es.ptr) s)

/-- `Event::stop_immediate_propagation` (event.rs lines 156-164). -/
def Event.stop_immediate_propagation (self : Event) (es : ExceptionState) (s : St) :
    Res (Except String Unit) :=
  checkException (Event.context_ref self) es
    (emit (FCall.stop_immediate_propagation self.method_pointer self.ptr es.ptr) s)

/-- `Event::stop_propagation` (event.rs lines 165-173). -/
def Event.stop_propagation (self : Event) (es : ExceptionState) (s : St) :
    Res (Except String Unit) :=
  checkException (Event.context_ref self) es
    (emit (FCall.stop_propagation self.method_pointer self.ptr es.ptr) s)

/-- Modelled from the spec: custom_event.rs is not among the sources.  By
the derived-capability composition pattern (spec section 4.4, identical in
shape to close_event.rs) a CustomEvent composes the parent Event built
from the embedded parent-table field plus its own table pointer. -/
structure CustomEvent where
  event : Event
  method_pointer : Nat
  deriving DecidableEq, Repr

/-- Modelled from the spec: `CustomEvent::initialize`, following the
generated constructor pattern of close_event.rs lines 22-34: panics
(`none`) when the table pointer is null, else builds the embedded parent
from the parent sub-table address. -/
def CustomEvent.construct (ptr context method_pointer status : Nat) : Option CustomEvent :=
  if method_pointer = 0 then none
  else some ⟨Event.construct ptr context (subTableAddr method_pointer) status, method_pointer⟩

/-- The `CloseEvent` capability (close_event.rs lines 17-20): composes the
full parent Event plus its own table pointer. -/
structure CloseEvent where
  event : Event
  method_pointer : Nat
  deriving DecidableEq, Repr

/-- `CloseEvent::initialize` (close_event.rs lines 22-34): the
`as_ref().unwrap()` on the table pointer panics (`none`) when it is null;
otherwise the embedded Event is built from the same handle, context and
status and from the embedded parent-table field `&(*method_pointer).event`. -/
def CloseEvent.construct (ptr context method_pointer status : Nat) : Option CloseEvent :=
  if method_pointer = 0 then none
  else some ⟨Event.construct ptr context (subTableAddr method_pointer) status, method_pointer⟩

/-- `CloseEvent::ptr` (close_event.rs lines 35-37): the embedded parent's
handle. -/
def CloseEvent.ptrv (self : CloseEvent) : Nat := self.event.ptr

/-- `CloseEvent::context` (close_event.rs lines 38-40). -/
def CloseEvent.context_ref (self : CloseEvent) : Option Nat := Event.context_ref self.event

/-- `CloseEvent::code` (close_event.rs lines 41-46): an i64 forward. -/
def CloseEvent.code (self : CloseEvent) (s : St) : Int × St :=
  callInt (FCall.code self.method_pointer (CloseEvent.ptrv self)) s

/-- `CloseEvent::reason` (close_event.rs lines 47-53): like
`Event::type_`, panics on invalid UTF-8. -/
def CloseEvent.reason (self : CloseEvent) (s : St) : Res (List Nat) :=
  let r := callBytes (FCall.reason self.method_pointer (CloseEvent.ptrv self)) s
  match strFromUtf8 r.1 with
  | none => Res.panic utf8UnwrapMsg r.2
  | some v => Res.ok v r.2

/-- `CloseEvent::was_clean` (close_event.rs lines 54-59): i32 normalized
with `!= 0`. -/
def CloseEvent.was_clean (self : CloseEvent) (s : St) : Bool × St :=
  let r := callInt (FCall.was_clean self.method_pointer (CloseEvent.ptrv self)) s
  (r.1 != 0, r.2)

/-- Modelled from the spec: ui_event.rs is not among the sources.  By the
composition pattern (spec section 4.4) and its use in focus_event.rs, a
UIEvent composes the parent Event plus its own table pointer. -/
structure UIEvent where
  event : Event
  method_pointer : Nat
  deriving DecidableEq, Repr

/-- Modelled from the spec: `UIEvent::initialize`, following the generated
constructor pattern (close_event.rs lines 22-34). -/
def UIEvent.construct (ptr context method_pointer status : Nat) : Option UIEvent :=
  if method_pointer = 0 then none
  else some ⟨Event.construct ptr context (subTableAddr method_pointer) status, method_pointer⟩

/-- Modelled from the spec: `UIEvent::ptr`, delegating to the embedded
parent like close_event.rs lines 35-37. -/
def UIEvent.ptrv (self : UIEvent) : Nat := self.event.ptr

/-- Modelled from the spec: `UIEvent::context`. -/
def UIEvent.context_ref (self : UIEvent) : Option Nat := Event.context_ref self.event

/-- Modelled from the spec: `UIEvent::detail`, a double accessor forward
(its delegation appears at focus_event.rs lines 58-60). -/
def UIEvent.detail (self : UIEvent) (s : St) : Int × St :=
  callF64 (FCall.detail self.method_pointer (UIEvent.ptrv self)) s

/-- Modelled from the spec: a Window capability object, same shape as the
other capability objects (spec section 3). -/
structure Window where
  ptr : Nat
  context : Nat
  method_pointer : Nat
  status : Nat
  deriving DecidableEq, Repr

/-- Modelled from the spec: `UIEvent::view`, an object-returning accessor
built like `Event::current_target` (its delegation appears at
focus_event.rs lines 61-63). -/
def UIEvent.view (self : UIEvent) (s : St) : Res Window :=
  let r := callRV (FCall.view self.method_pointer (UIEvent.ptrv self)) s
  match UIEvent.context_ref self with
  | none => Res.panic ctxAssertMsg r.2
  | some ctx => Res.ok ⟨r.1.value, ctx, r.1.method_pointer, r.1.status⟩ r.2

/-- Modelled from the spec: `UIEvent::which`, a double accessor forward
(its delegation appears at focus_event.rs lines 64-66). -/
def UIEvent.which (self : UIEvent) (s : St) : Int × St :=
  callF64 (FCall.which self.method_pointer (UIEvent.ptrv self)) s

/-- The `FocusEvent` capability (focus_event.rs lines 14-17): composes the
full parent UIEvent plus its own table pointer. -/
structure FocusEvent where
  ui_event : UIEvent
  method_pointer : Nat
  deriving DecidableEq, Repr

/-- `FocusEvent::initialize` (focus_event.rs lines 19-31): panics
(`none`) on a null table pointer, else builds the embedded UIEvent from
the embedded parent-table field `&(*method_pointer).ui_event`; the nested
constructor cannot fail because the sub-table address is non-null. -/
def FocusEvent.construct (ptr context method_pointer status : Nat) : Option FocusEvent :=
  if method_pointer = 0 then none
  else (UIEvent.construct ptr context (subTableAddr method_pointer) status).map
    fun ue => ⟨ue, method_pointer⟩

/-- `FocusEvent::ptr` (focus_event.rs lines 32-34). -/
def FocusEvent.ptrv (self : FocusEvent) : Nat := UIEvent.ptrv self.ui_event

/-- `FocusEvent::context` (focus_event.rs lines 35-37). -/
def FocusEvent.context_ref (self : FocusEvent) : Option Nat := UIEvent.context_ref self.ui_event

/-- `FocusEvent::related_target` (focus_event.rs lines 38-43): forward,
then build an EventTarget from the returned triple and `self.context()`. -/
def FocusEvent.related_target (self : FocusEvent) (s : St) : Res EventTarget :=
  let r := callRV (FCall.related_target self.method_pointer (FocusEvent.ptrv self)) s
  match FocusEvent.context_ref self with
  | none => Res.panic ctxAssertMsg r.2
  | some ctx => Res.ok (EventTarget.construct r.1.value ctx r.1.method_pointer r.1.status) r.2

/-- Error message of `Event::as_custom_event` (event.rs line 180). -/
def customCastErrMsg : String := "The type value of Event does not belong to the CustomEvent type."

/-- Error message of `Event::as_close_event` (event.rs line 200). -/
def closeCastErrMsg : String := "The type value of Event does not belong to the CloseEvent type."

/-- Error message of `Event::as_focus_event` (event.rs line 260). -/
def focusCastErrMsg : String := "The type value of Event does not belong to the FocusEvent type."

/-- `Event::as_custom_event` (event.rs lines 174-183): assert the shared
disposal status is live (else panic, before any foreign call), call the
`dynamic_to` dispatcher with the CustomEvent tag; a null returned handle
is the typed mismatch error, otherwise construct the refinement from the
returned triple and the source's context. -/
def Event.as_custom_event (self : Event) (s : St) : Res (Except String CustomEvent) :=
  if s.oracle.disposedFlag self.status then Res.panic disposedAssertMsg s
  else
    let r := callRV (FCall.dynamic_to self.method_pointer self.ptr customEventTag) s
    if r.1.value = 0 then Res.ok (Except.error customCastErrMsg) r.2
    else
      match CustomEvent.construct r.1.value self.context r.1.method_pointer r.1.status with
      | none => Res.panic unwrapNoneMsg r.2
      | some ce => Res.ok (Except.ok ce) r.2

/-- `Event::as_close_event` (event.rs lines 194-203). -/
def Event.as_close_event (self : Event) (s : St) : Res (Except String CloseEvent) :=
  if s.oracle.disposedFlag self.status then Res.panic disposedAssertMsg s
  else
    let r := callRV (FCall.dynamic_to self.method_pointer self.ptr closeEventTag) s
    if r.1.value = 0 then Res.ok (Except.error closeCastErrMsg) r.2
    else
      match CloseEvent.construct r.1.value self.context r.1.method_pointer r.1.status with
      | none => Res.panic unwrapNoneMsg r.2
      | some ce => Res.ok (Except.ok ce) r.2

/-- `Event::as_focus_event` (event.rs lines 254-263). -/
def Event.as_focus_event (self : Event) (s : St) : Res (Except String FocusEvent) :=
  if s.oracle.disposedFlag self.status then Res.panic disposedAssertMsg s
  else
    let r := callRV (FCall.dynamic_to self.method_pointer self.ptr focusEventTag) s
    if r.1.value = 0 then Res.ok (Except.error focusCastErrMsg) r.2
    else
      match FocusEvent.construct r.1.value self.context r.1.method_pointer r.1.status with
      | none => Res.panic unwrapNoneMsg r.2
      | some fe => Res.ok (Except.ok fe) r.2

/-- `impl Drop for Event` (event.rs lines 295-301): the destructor glue
Rust runs once when the owning scope ends; it issues the single `release`
call through the method table. -/
def Event.dropGlue (self : Event) (s : St) : St :=
  emit (FCall.release self.method_pointer self.ptr) s

/-- CloseEvent has no own Drop impl (close_event.rs); Rust drops its
fields, so dropping a CloseEvent runs the embedded Event's drop glue. -/
def CloseEvent.dropGlue (self : CloseEvent) (s : St) : St :=
  Event.dropGlue self.event s

/-- Modelled from the spec: UIEvent has no own Drop impl (by the pattern
of close_event.rs); dropping it drops the embedded Event. -/
def UIEvent.dropGlue (self : UIEvent) (s : St) : St :=
  Event.dropGlue self.event s

/-- FocusEvent has no own Drop impl (focus_event.rs); dropping it drops
the embedded UIEvent, which drops the embedded Event. -/
def FocusEvent.dropGlue (self : FocusEvent) (s : St) : St :=
  UIEvent.dropGlue self.ui_event s

/-- The `EventTargetMethods` trait of node.rs (lines 88-127 show the Node
impl): the per-type raw constructor plus the handle accessor.  The Rust
`initialize` implementations read foreign table memory (node.rs line 96
reads the `event_target` field of the node table), so the class method
takes the oracle; it returns `none` where the implementation panics
(`as_ref().unwrap()` on a null table pointer).  The single-letter type
variable keeps the caller-specified generic result type of the node
operations. -/
class EventTargetMethods (α : Type) where
  make : Oracle → Nat → Nat → Nat → Option α
  ptr_of : α → Nat

/-- The `Node` capability (node.rs lines 48-51): composes an EventTarget
plus the node method-table pointer. -/
structure Node where
  event_target : EventTarget
  method_pointer : Nat
  deriving DecidableEq, Repr

/-- `impl EventTargetMethods for Node` (node.rs lines 88-105):
`initialize` builds the embedded EventTarget from the `event_target`
table-pointer field read out of the node table (panicking on a null node
table), and `ptr` is the embedded EventTarget's handle. -/
instance : EventTargetMethods Node where
  make o ptr context method_pointer :=
    if method_pointer = 0 then none
    else some ⟨EventTarget.constructNoStatus ptr context (o.etTableField method_pointer),
      method_pointer⟩
  ptr_of self := self.event_target.ptr

/-- `Node::append_child` (node.rs lines 55-65): forward the caller's
handle, the argument's handle and the exception state; then check the
exception state: on exception, fail with the context-rendered message; on
success, build the caller-specified generic result type from the returned
(handle, table) pair and the caller's context (the context assert runs in
both branches, when `event_target.context()` is evaluated). -/
def Node.append_child {α : Type} [EventTargetMethods α] (self : Node) (new_node : α)
    (es : ExceptionState) (s : St) : Res (Except String α) :=
  let r := callRV (FCall.append_child self.method_pointer self.event_target.ptr
    (EventTargetMethods.ptr_of new_node) es.ptr) s
  let hx := callBool (FCall.has_exception es.ptr) r.2
  if hx.1 then
    match EventTarget.context_ref self.event_target with
    | none => Res.panic ctxAssertMsg hx.2
    | some ctx =>
      let m := callStr (FCall.stringify es.ptr ctx) hx.2
      Res.ok (Except.error m.1) m.2
  else
    match EventTarget.context_ref self.event_target with
    | none => Res.panic ctxAssertMsg hx.2
    | some ctx =>
      match EventTargetMethods.make (α := α) hx.2.oracle r.1.value ctx r.1.method_pointer with
      | none => Res.panic unwrapNoneMsg hx.2
      | some t => Res.ok (Except.ok t) hx.2

/-- `Node::remove_child` (node.rs lines 68-78): identical shape through
the `remove_node` table slot. -/
def Node.remove_child {α : Type} [EventTargetMethods α] (self : Node) (target_node : α)
    (es : ExceptionState) (s : St) : Res (Except String α) :=
  let r := callRV (FCall.remove_node self.method_pointer self.event_target.ptr
    (EventTargetMethods.ptr_of target_node) es.ptr) s
  let hx := callBool (FCall.has_exception es.ptr) r.2
  if hx.1 then
    match EventTarget.context_ref self.event_target with
    | none => Res.panic ctxAssertMsg hx.2
    | some ctx =>
      let m := callStr (FCall.stringify es.ptr ctx) hx.2
      Res.ok (Except.error m.1) m.2
  else
    match EventTarget.context_ref self.event_target with
    | none => Res.panic ctxAssertMsg hx.2
    | some ctx =>
      match EventTargetMethods.make (α := α) hx.2.oracle r.1.value ctx r.1.method_pointer with
      | none => Res.panic unwrapNoneMsg hx.2
      | some t => Res.ok (Except.ok t) hx.2

/-- The `EventMethods` capability trait (event.rs lines 302-319): the full
parent operation set, re-exposed on every refinement. -/
class EventMethods (α : Type) where
  bubbles : α → St → Bool × St
  cancel_bubble : α → St → Bool × St
  set_cancel_bubble : α → Bool → ExceptionState → St → Res (Except String Unit)
  cancelable : α → St → Bool × St
  current_target : α → St → Res EventTarget
  default_prevented : α → St → Bool × St
  src_element : α → St → Res EventTarget
  target : α → St → Res EventTarget
  is_trusted : α → St → Bool × St
  time_stamp : α → St → Int × St
  type_ : α → St → Res (List Nat)
  init_event : α → List Nat → Bool → Bool → ExceptionState → St → Res (Except String Unit)
  prevent_default : α → ExceptionState → St → Res (Except String Unit)
  stop_immediate_propagation : α → ExceptionState → St → Res (Except String Unit)
  stop_propagation : α → ExceptionState → St → Res (Except String Unit)
  as_event : α → Event

/-- `impl EventMethods for Event` (event.rs lines 320-369): each method is
the inherent operation itself. -/
instance : EventMethods Event where
  bubbles := Event.bubbles
  cancel_bubble := Event.cancel_bubble
  set_cancel_bubble := Event.set_cancel_bubble
  cancelable := Event.cancelable
  current_target := Event.current_target
  default_prevented := Event.default_prevented
  src_element := Event.src_element
  target := Event.target
  is_trusted := Event.is_trusted
  time_stamp := Event.time_stamp
  type_ := Event.type_
  init_event := Event.init_event
  prevent_default := Event.prevent_default
  stop_immediate_propagation := Event.stop_immediate_propagation
  stop_propagation := Event.stop_propagation
  as_event self := self

/-- `impl EventMethods for CloseEvent` (close_event.rs lines 81-130):
every parent operation forwards to the embedded parent object
`self.event`. -/
instance : EventMethods CloseEvent where
  bubbles self := Event.bubbles self.event
  cancel_bubble self := Event.cancel_bubble self.event
  set_cancel_bubble self := Event.set_cancel_bubble self.event
  cancelable self := Event.cancelable self.event
  current_target self := Event.current_target self.event
  default_prevented self := Event.default_prevented self.event
  src_element self := Event.src_element self.event
  target self := Event.target self.event
  is_trusted self := Event.is_trusted self.event
  time_stamp self := Event.time_stamp self.event
  type_ self := Event.type_ self.event
  init_event self := Event.init_event self.event
  prevent_default self := Event.prevent_default self.event
  stop_immediate_propagation self := Event.stop_immediate_propagation self.event
  stop_propagation self := Event.stop_propagation self.event
  as_event self := self.event

/-- `impl EventMethods for FocusEvent` (focus_event.rs lines 71-120):
every parent operation forwards through the composition chain to
`self.ui_event.event`. -/
instance : EventMethods FocusEvent where
  bubbles self := Event.bubbles self.ui_event.event
  cancel_bubble self := Event.cancel_bubble self.ui_event.event
  set_cancel_bubble self := Event.set_cancel_bubble self.ui_event.event
  cancelable self := Event.cancelable self.ui_event.event
  current_target self := Event.current_target self.ui_event.event
  default_prevented self := Event.default_prevented self.ui_event.event
  src_element self := Event.src_element self.ui_event.event
  target self := Event.target self.ui_event.event
  is_trusted self := Event.is_trusted self.ui_event.event
  time_stamp self := Event.time_stamp self.ui_event.event
  type_ self := Event.type_ self.ui_event.event
  init_event self := Event.init_event self.ui_event.event
  prevent_default self := Event.prevent_default self.ui_event.event
  stop_immediate_propagation self := Event.stop_immediate_propagation self.ui_event.event
  stop_propagation self := Event.stop_propagation self.ui_event.event
  as_event self := self.ui_event.event

/-- The `CloseEventMethods` trait (close_event.rs lines 61-66). -/
class CloseEventMethods (α : Type) where
  code : α → St → Int × St
  reason : α → St → Res (List Nat)
  was_clean : α → St → Bool × St
  as_close_event : α → CloseEvent

/-- `impl CloseEventMethods for CloseEvent` (close_event.rs lines 67-80). -/
instance : CloseEventMethods CloseEvent where
  code := CloseEvent.code
  reason := CloseEvent.reason
  was_clean := CloseEvent.was_clean
  as_close_event self := self

/-- The `UIEventMethods` trait as delegated in focus_event.rs lines 45-70. -/
class UIEventMethods (α : Type) where
  detail : α → St → Int × St
  view : α → St → Res Window
  which : α → St → Int × St
  as_ui_event : α → UIEvent

/-- `impl UIEventMethods for FocusEvent` (focus_event.rs lines 57-70):
forwards to the embedded `self.ui_event`. -/
instance : UIEventMethods FocusEvent where
  detail self := UIEvent.detail self.ui_event
  view self := UIEvent.view self.ui_event
  which self := UIEvent.which self.ui_event
  as_ui_event self := self.ui_event

/-- An operation a caller can run on an Event during its lifetime (the
public operation set of event.rs). -/
inductive EventOp where
  | bubbles
  | cancel_bubble
  | cancelable
  | default_prevented
  | is_trusted
  | time_stamp
  | type_
  | current_target
  | src_element
  | target
  | set_cancel_bubble (v : Bool) (es : Nat)
  | init_event (ty : List Nat) (b c : Bool) (es : Nat)
  | prevent_default (es : Nat)
  | stop_immediate_propagation (es : Nat)
  | stop_propagation (es : Nat)
  | as_custom_event
  | as_close_event
  | as_focus_event

/-- Turn an outcome into (state reached, whether it panicked). -/
def resStep {α : Type} (r : Res α) : St × Bool := (r.state, r.isPanic)

/-- Run one Event operation, keeping only its effect on the interaction
state and whether it panicked (a panic unwinds the owning scope). -/
def runOp (self : Event) (op : EventOp) (s : St) : St × Bool :=
  match op with
  | .bubbles => ((Event.bubbles self s).2, false)
  | .cancel_bubble => ((Event.cancel_bubble self s).2, false)
  | .cancelable => ((Event.cancelable self s).2, false)
  | .default_prevented => ((Event.default_prevented self s).2, false)
  | .is_trusted => ((Event.is_trusted self s).2, false)
  | .time_stamp => ((Event.time_stamp self s).2, false)
  | .type_ => resStep (Event.type_ self s)
  | .current_target => resStep (Event.current_target self s)
  | .src_element => resStep (Event.src_element self s)
  | .target => resStep (Event.target self s)
  | .set_cancel_bubble v es => resStep (Event.set_cancel_bubble self v ⟨es⟩ s)
  | .init_event ty b c es => resStep (Event.init_event self ty b c ⟨es⟩ s)
  | .prevent_default es => resStep (Event.prevent_default self ⟨es⟩ s)
  | .stop_immediate_propagation es => resStep (Event.stop_immediate_propagation self ⟨es⟩ s)
  | .stop_propagation es => resStep (Event.stop_propagation self ⟨es⟩ s)
  | .as_custom_event => resStep (Event.as_custom_event self s)
  | .as_close_event => resStep (Event.as_close_event self s)
  | .as_focus_event => resStep (Event.as_focus_event self s)

/-- Run a sequence of Event operations; a panic stops the sequence (the
scope unwinds). -/
def runOps (self : Event) (ops : List EventOp) (s : St) : St :=
  match ops with
  | [] => s
  | op :: rest =>
    let r := runOp self op s
    if r.2 then r.1 else runOps self rest r.1

/-- A whole Event lifetime: the caller's chosen operations (however the
scope exits), then the destructor glue Rust runs exactly once at scope
end. -/
def Event.lifetime (self : Event) (ops : List EventOp) (s : St) : St :=
  Event.dropGlue self (runOps self ops s)

/-- An operation on a CloseEvent: its own accessors plus every operation
re-exposed from the parent (which forwards to the embedded Event). -/
inductive CloseEventOp where
  | base (op : EventOp)
  | code
  | reason
  | was_clean

/-- Run one CloseEvent operation. -/
def runCloseOp (self : CloseEvent) (op : CloseEventOp) (s : St) : St × Bool :=
  match op with
  | .base op => runOp self.event op s
  | .code => ((CloseEvent.code self s).2, false)
  | .reason => resStep (CloseEvent.reason self s)
  | .was_clean => ((CloseEvent.was_clean self s).2, false)

/-- Run a sequence of CloseEvent operations; a panic stops the sequence. -/
def runCloseOps (self : CloseEvent) (ops : List CloseEventOp) (s : St) : St :=
  match ops with
  | [] => s
  | op :: rest =>
    let r := runCloseOp self op s
    if r.2 then r.1 else runCloseOps self rest r.1

/-- A whole CloseEvent lifetime: operations, then the field-drop of the
embedded Event at scope end. -/
def CloseEvent.lifetime (self : CloseEvent) (ops : List CloseEventOp) (s : St) : St :=
  CloseEvent.dropGlue self (runCloseOps self ops s)

/-- An operation on a FocusEvent: its own accessor, the UIEvent accessors
and every operation re-exposed from the base Event. -/
inductive FocusEventOp where
  | base (op : EventOp)
  | detail
  | view
  | which
  | related_target

/-- Run one FocusEvent operation. -/
def runFocusOp (self : FocusEvent) (op : FocusEventOp) (s : St) : St × Bool :=
  match op with
  | .base op => runOp self.ui_event.event op s
  | .detail => ((UIEvent.detail self.ui_event s).2, false)
  | .view => resStep (UIEvent.view self.ui_event s)
  | .which => ((UIEvent.which self.ui_event s).2, false)
  | .related_target => resStep (FocusEvent.related_target self s)

/-- Run a sequence of FocusEvent operations; a panic stops the sequence. -/
def runFocusOps (self : FocusEvent) (ops : List FocusEventOp) (s : St) : St :=
  match ops with
  | [] => s
  | op :: rest =>
    let r := runFocusOp self op s
    if r.2 then r.1 else runFocusOps self rest r.1

/-- A whole FocusEvent lifetime: operations, then the nested field-drop
at scope end. -/
def FocusEvent.lifetime (self : FocusEvent) (ops : List FocusEventOp) (s : St) : St :=
  FocusEvent.dropGlue self (runFocusOps self ops s)

/-- Number of `release` calls in a trace. -/
def releaseCount (t : List FCall) : Nat := (t.filter FCall.isRelease).length

/-- The exception discipline claimed for one fallible binding call (claim
C1): with the oracle's exception flag read at the position right after the
call denoted `flag`, the operation must forward the method-table call
first, query the exception state immediately after it with no other
foreign call in between, and return Err of the stringified exception
exactly when `flag` is true, Ok(()) otherwise — never panicking. -/
def FallibleStep (ctx : Nat) (es : ExceptionState) (c : FCall) (s : St)
    (r : Res (Except String Unit)) : Prop :=
  if s.oracle.boolR (s.trace.length + 1) (FCall.has_exception es.ptr) then
    r = Res.ok (Except.error (s.oracle.strR (s.trace.length + 2) (FCall.stringify es.ptr ctx)))
      { s with trace := s.trace ++ [c, FCall.has_exception es.ptr, FCall.stringify es.ptr ctx] }
  else
    r = Res.ok (Except.ok ()) { s with trace := s.trace ++ [c, FCall.has_exception es.ptr] }

/-- Claim C1, stated for all five fallible Event operations (for
`init_event`, for every type name free of interior NUL bytes, which is
when the operation reaches the foreign call at all — the NUL case is
claim C9). -/
def C1Prop (ev : Event) (es : ExceptionState) (s : St) : Prop :=
  (∀ v : Bool, FallibleStep ev.context es
    (FCall.set_cancel_bubble ev.method_pointer ev.ptr (i32_from v) es.ptr) s
    (Event.set_cancel_bubble ev v es s)) ∧
  (∀ (ty : List Nat) (b c : Bool), ty.contains 0 = false → FallibleStep ev.context es
    (FCall.init_event ev.method_pointer ev.ptr ty (i32_from b) (i32_from c) es.ptr) s
    (Event.init_event ev ty b c es s)) ∧
  FallibleStep ev.context es (FCall.prevent_default ev.method_pointer ev.ptr es.ptr) s
    (Event.prevent_default ev es s) ∧
  FallibleStep ev.context es (FCall.stop_propagation ev.method_pointer ev.ptr es.ptr) s
    (Event.stop_propagation ev es s) ∧
  FallibleStep ev.context es
    (FCall.stop_immediate_propagation ev.method_pointer ev.ptr es.ptr) s
    (Event.stop_immediate_propagation ev es s)

/-- The amended claim C2: only the dynamic downcasts assert the shared
disposal status (panicking with the diagnostic before any foreign call
when it reads disposed), while the accessors and the fallible mutating
operations forward to the foreign side without consulting the disposal
status at all (their traces gain the forwarded call for every oracle,
including disposed ones). -/
def C2Prop (ev : Event) (s : St) : Prop :=
  (s.oracle.disposedFlag ev.status = true →
     Event.as_custom_event ev s = Res.panic disposedAssertMsg s ∧
     Event.as_close_event ev s = Res.panic disposedAssertMsg s ∧
     Event.as_focus_event ev s = Res.panic disposedAssertMsg s) ∧
  ((Event.bubbles ev s).2.trace = s.trace ++ [FCall.bubbles ev.method_pointer ev.ptr]) ∧
  ((Event.cancel_bubble ev s).2.trace = s.trace ++ [FCall.cancel_bubble ev.method_pointer ev.ptr]) ∧
  ((Event.cancelable ev s).2.trace = s.trace ++ [FCall.cancelable ev.method_pointer ev.ptr]) ∧
  ((Event.default_prevented ev s).2.trace
     = s.trace ++ [FCall.default_prevented ev.method_pointer ev.ptr]) ∧
  ((Event.is_trusted ev s).2.trace = s.trace ++ [FCall.is_trusted ev.method_pointer ev.ptr]) ∧
  ((Event.time_stamp ev s).2.trace = s.trace ++ [FCall.time_stamp ev.method_pointer ev.ptr]) ∧
  (∀ (v : Bool) (es : ExceptionState), ∃ rest,
     (Event.set_cancel_bubble ev v es s).state.trace =
       s.trace ++ FCall.set_cancel_bubble ev.method_pointer ev.ptr (i32_from v) es.ptr :: rest) ∧
  (∀ es : ExceptionState, ∃ rest,
     (Event.prevent_default ev es s).state.trace =
       s.trace ++ FCall.prevent_default ev.method_pointer ev.ptr es.ptr :: rest)

/-- Claim C3 for the three embedded downcasts, on a live source Event: a
null returned handle yields the typed mismatch error with no object
constructed; a non-null (handle, table, status) triple yields Ok of the
refinement built from that triple and the source's context. -/
def C3Prop (ev : Event) (s : St) : Prop :=
  (let c := FCall.dynamic_to ev.method_pointer ev.ptr customEventTag
   let raw := s.oracle.rvR s.trace.length c
   (raw.value = 0 →
      Event.as_custom_event ev s = Res.ok (Except.error customCastErrMsg) (emit c s)) ∧
   (raw.value ≠ 0 → raw.method_pointer ≠ 0 →
      Event.as_custom_event ev s = Res.ok (Except.ok
        ⟨Event.construct raw.value ev.context (subTableAddr raw.method_pointer) raw.status,
         raw.method_pointer⟩) (emit c s))) ∧
  (let c := FCall.dynamic_to ev.method_pointer ev.ptr closeEventTag
   let raw := s.oracle.rvR s.trace.length c
   (raw.value = 0 →
      Event.as_close_event ev s = Res.ok (Except.error closeCastErrMsg) (emit c s)) ∧
   (raw.value ≠ 0 → raw.method_pointer ≠ 0 →
      Event.as_close_event ev s = Res.ok (Except.ok
        ⟨Event.construct raw.value ev.context (subTableAddr raw.method_pointer) raw.status,
         raw.method_pointer⟩) (emit c s))) ∧
  (let c := FCall.dynamic_to ev.method_pointer ev.ptr focusEventTag
   let raw := s.oracle.rvR s.trace.length c
   (raw.value = 0 →
      Event.as_focus_event ev s = Res.ok (Except.error focusCastErrMsg) (emit c s)) ∧
   (raw.value ≠ 0 → raw.method_pointer ≠ 0 →
      Event.as_focus_event ev s = Res.ok (Except.ok
        ⟨⟨Event.construct raw.value ev.context (subTableAddr (subTableAddr raw.method_pointer))
            raw.status, subTableAddr raw.method_pointer⟩,
         raw.method_pointer⟩) (emit c s)))

/-- Claim C4 for both node mutation operations: forward the caller's
handle and the argument's handle together with the exception state; on a
reported exception return the context-rendered failure and construct
nothing; otherwise return Ok of the caller-specified generic type built
from the returned (handle, table) pair. -/
def C4Prop (α : Type) [EventTargetMethods α] (self : Node) (n : α) (es : ExceptionState)
    (s : St) : Prop :=
  let ctx := self.event_target.context
  let flag := s.oracle.boolR (s.trace.length + 1) (FCall.has_exception es.ptr)
  let ca := FCall.append_child self.method_pointer self.event_target.ptr
    (EventTargetMethods.ptr_of n) es.ptr
  let cr := FCall.remove_node self.method_pointer self.event_target.ptr
    (EventTargetMethods.ptr_of n) es.ptr
  let ra := s.oracle.rvR s.trace.length ca
  let rr := s.oracle.rvR s.trace.length cr
  ((flag = true →
      Node.append_child self n es s =
        Res.ok (Except.error (s.oracle.strR (s.trace.length + 2) (FCall.stringify es.ptr ctx)))
          { s with trace :=
              s.trace ++ [ca, FCall.has_exception es.ptr, FCall.stringify es.ptr ctx] }) ∧
   (flag = false → ∀ t : α,
      EventTargetMethods.make s.oracle ra.value ctx ra.method_pointer = some t →
      Node.append_child self n es s =
        Res.ok (Except.ok t) { s with trace := s.trace ++ [ca, FCall.has_exception es.ptr] })) ∧
  ((flag = true →
      Node.remove_child self n es s =
        Res.ok (Except.error (s.oracle.strR (s.trace.length + 2) (FCall.stringify es.ptr ctx)))
          { s with trace :=
              s.trace ++ [cr, FCall.has_exception es.ptr, FCall.stringify es.ptr ctx] }) ∧
   (flag = false → ∀ t : α,
      EventTargetMethods.make s.oracle rr.value ctx rr.method_pointer = some t →
      Node.remove_child self n es s =
        Res.ok (Except.ok t) { s with trace := s.trace ++ [cr, FCall.has_exception es.ptr] }))

/-- Claim C8: boolean accessors normalize the foreign i32 with `!= 0`
(any nonzero integer reads true), and boolean parameters are sent as the
i32 1 for true, 0 for false. -/
def C8Prop (ev : Event) (ce : CloseEvent) (v b c : Bool) (ty : List Nat)
    (es : ExceptionState) (s : St) : Prop :=
  ((Event.bubbles ev s).1 = true ↔
     s.oracle.intR s.trace.length (FCall.bubbles ev.method_pointer ev.ptr) ≠ 0) ∧
  ((Event.cancel_bubble ev s).1 = true ↔
     s.oracle.intR s.trace.length (FCall.cancel_bubble ev.method_pointer ev.ptr) ≠ 0) ∧
  ((Event.cancelable ev s).1 = true ↔
     s.oracle.intR s.trace.length (FCall.cancelable ev.method_pointer ev.ptr) ≠ 0) ∧
  ((Event.default_prevented ev s).1 = true ↔
     s.oracle.intR s.trace.length (FCall.default_prevented ev.method_pointer ev.ptr) ≠ 0) ∧
  ((Event.is_trusted ev s).1 = true ↔
     s.oracle.intR s.trace.length (FCall.is_trusted ev.method_pointer ev.ptr) ≠ 0) ∧
  ((CloseEvent.was_clean ce s).1 = true ↔
     s.oracle.intR s.trace.length
       (FCall.was_clean ce.method_pointer (CloseEvent.ptrv ce)) ≠ 0) ∧
  (i32_from true = 1 ∧ i32_from false = 0) ∧
  (∃ rest, (Event.set_cancel_bubble ev v es s).state.trace =
     s.trace ++ FCall.set_cancel_bubble ev.method_pointer ev.ptr (i32_from v) es.ptr :: rest) ∧
  (ty.contains 0 = false → ∃ rest, (Event.init_event ev ty b c es s).state.trace =
     s.trace ++ FCall.init_event ev.method_pointer ev.ptr ty
       (i32_from b) (i32_from c) es.ptr :: rest)

/-- Claim C9: `init_event` panics on an interior NUL in the type name
before any foreign call (the state is returned untouched), and proceeds
to the foreign call for every NUL-free type name. -/
def C9Prop (ev : Event) (ty : List Nat) (b c : Bool) (es : ExceptionState) (s : St) : Prop :=
  (ty.contains 0 = true → Event.init_event ev ty b c es s = Res.panic nulUnwrapMsg s) ∧
  (ty.contains 0 = false → ∃ rest,
     (Event.init_event ev ty b c es s).state.trace =
       s.trace ++ FCall.init_event ev.method_pointer ev.ptr ty
         (i32_from b) (i32_from c) es.ptr :: rest)

/-- Running an operation either made no foreign call or its first foreign
call forwards the handle `p`. -/
def ForwardsPtr (p : Nat) (before after : St) : Prop :=
  after.trace = before.trace ∨
  ∃ c rest, after.trace = before.trace ++ c :: rest ∧ FCall.selfPtr c = p

/-- Claim C10: a refinement built by the generated constructor shares the
handle, context reference and disposal status unchanged through the whole
composition chain, and every operation on it (own or re-exposed) forwards
that same handle. -/
def C10Prop (p ctx mp st : Nat) : Prop :=
  (∀ ce : CloseEvent, CloseEvent.construct p ctx mp st = some ce →
     ce.event = Event.construct p ctx (subTableAddr mp) st ∧
     CloseEvent.ptrv ce = p ∧ ce.event.ptr = p ∧
     CloseEvent.context_ref ce = Event.context_ref ce.event ∧
     ce.event.context = ctx ∧ ce.event.status = st ∧
     (∀ (op : CloseEventOp) (s : St), ForwardsPtr p s (runCloseOp ce op s).1)) ∧
  (∀ fe : FocusEvent, FocusEvent.construct p ctx mp st = some fe →
     fe.ui_event.event = Event.construct p ctx (subTableAddr (subTableAddr mp)) st ∧
     FocusEvent.ptrv fe = p ∧ UIEvent.ptrv fe.ui_event = p ∧ fe.ui_event.event.ptr = p ∧
     FocusEvent.context_ref fe = UIEvent.context_ref fe.ui_event ∧
     UIEvent.context_ref fe.ui_event = Event.context_ref fe.ui_event.event ∧
     fe.ui_event.event.context = ctx ∧ fe.ui_event.event.status = st ∧
     (∀ (op : FocusEventOp) (s : St), ForwardsPtr p s (runFocusOp fe op s).1))

/-- A concrete foreign behaviour for the witnesses: live status, no
exception raised, every object-vending call returns the triple
(5, 40, 7), integer reads return 1. -/
def oracleA : Oracle where
  intR _ _ := 1
  f64R _ _ := 2
  bytesR _ _ := [104, 105]
  boolR _ _ := false
  strR _ _ := "rendered exception"
  rvR _ _ := ⟨5, 40, 7⟩
  disposedFlag _ := false
  etTableField _ := 11

/-- Like `oracleA`, but the exception flag reads true after every call. -/
def oracleExc : Oracle :=
  { oracleA with boolR := fun _ _ => true }

/-- Like `oracleA`, but every disposal status reads disposed. -/
def oracleDisposed : Oracle :=
  { oracleA with disposedFlag := fun _ => true }

/-- Like `oracleA`, but the downcast dispatcher returns a null handle. -/
def oracleNullCast : Oracle :=
  { oracleA with rvR := fun _ _ => ⟨0, 0, 0⟩ }

/-- Like `oracleA`, but string reads return the lone byte 0xFF, which is
not valid UTF-8. -/
def oracleBadUtf8 : Oracle :=
  { oracleA with bytesR := fun _ _ => [255] }

/-- A fresh interaction state over a given oracle. -/
def stO (o : Oracle) : St := ⟨o, []⟩

/-- A concrete Event: handle 2, context 3, table 4, status 6. -/
def evW : Event := ⟨2, 3, 4, 6⟩

/-- A concrete exception-state handle. -/
def esW : ExceptionState := ⟨9⟩

/-- The CloseEvent the generated constructor builds from
(2, 3, 40, 6). -/
def ceW : CloseEvent := ⟨⟨2, 3, 48, 6⟩, 40⟩

/-- The FocusEvent the generated constructor builds from
(2, 3, 40, 6). -/
def feW : FocusEvent := ⟨⟨⟨2, 3, 56, 6⟩, 48⟩, 40⟩

/-- A concrete Node: EventTarget handle 2, context 3, table 12; node
table 14. -/
def nodeW : Node := ⟨⟨2, 3, 12, 0⟩, 14⟩

/-- A second concrete Node used as operation argument. -/
def nodeArgW : Node := ⟨⟨21, 3, 12, 0⟩, 14⟩

theorem emit_trace (c : FCall) (s : St) : (emit c s).trace = s.trace ++ [c] := rfl

/-- The shared exception tail satisfies the C1 discipline whenever the
context reference is non-null. -/
theorem fallibleStep_checkException (ctx : Nat) (es : ExceptionState) (c : FCall) (s : St) :
    FallibleStep ctx es c s (checkException (some ctx) es (emit c s)) := by
  unfold FallibleStep checkException emit
  by_cases h : s.oracle.boolR (s.trace.length + 1) (FCall.has_exception es.ptr)
  · simp [h, List.append_assoc]
  · simp [h]

/-- The exception tail only ever appends to the trace. -/
theorem checkException_state_trace (ctxr : Option Nat) (es : ExceptionState) (s : St) :
    ∃ rest, (checkException ctxr es s).state.trace = s.trace ++ rest := by
  unfold checkException
  by_cases h : s.oracle.boolR s.trace.length (FCall.has_exception es.ptr)
  · cases ctxr with
    | none =>
      exact ⟨[FCall.has_exception es.ptr], by simp [h, Res.state, emit]⟩
    | some ctx =>
      exact ⟨[FCall.has_exception es.ptr, FCall.stringify es.ptr ctx],
        by simp [h, Res.state, emit]⟩
  · exact ⟨[FCall.has_exception es.ptr], by simp [h, Res.state, emit]⟩

/-- C1: every fallible Event operation forwards the method-table call,
queries the exception state immediately after it (no other foreign call
in between), and returns Err of the stringified exception message exactly
when the exception state reports an exception after the call, Ok(())
otherwise. -/
theorem claim_C1 (ev : Event) (es : ExceptionState) (s : St) (hctx : ev.context ≠ 0) :
    C1Prop ev es s := by
  have href : Event.context_ref ev = some ev.context := by simp [Event.context_ref, hctx]
  refine ⟨fun v => ?_, fun ty b c hty => ?_, ?_, ?_, ?_⟩
  · unfold Event.set_cancel_bubble
    rw [href]
    exact fallibleStep_checkException ev.context es _ s
  · have hcs : cstringNew ty = some ty := by unfold cstringNew; rw [hty]; rfl
    unfold Event.init_event
    rw [hcs, href]
    exact fallibleStep_checkException ev.context es _ s
  · unfold Event.prevent_default
    rw [href]
    exact fallibleStep_checkException ev.context es _ s
  · unfold Event.stop_propagation
    rw [href]
    exact fallibleStep_checkException ev.context es _ s
  · unfold Event.stop_immediate_propagation
    rw [href]
    exact fallibleStep_checkException ev.context es _ s

theorem claim_C1_witness : evW.context ≠ 0 ∧ C1Prop evW esW (stO oracleA) :=
  ⟨by decide, claim_C1 evW esW (stO oracleA) (by decide)⟩

/-- C2 (amended): only the dynamic downcasts assert the disposal status,
panicking with the diagnostic before any foreign call when it reads
disposed; accessors and fallible mutating operations forward without
consulting the disposal status. -/
theorem claim_C2 (ev : Event) (s : St) : C2Prop ev s := by
  refine ⟨fun hd => ?_, ?_, ?_, ?_, ?_, ?_, ?_, fun v es => ?_, fun es => ?_⟩
  · exact ⟨by simp [Event.as_custom_event, hd], by simp [Event.as_close_event, hd],
      by simp [Event.as_focus_event, hd]⟩
  · simp [Event.bubbles, callInt, emit]
  · simp [Event.cancel_bubble, callInt, emit]
  · simp [Event.cancelable, callInt, emit]
  · simp [Event.default_prevented, callInt, emit]
  · simp [Event.is_trusted, callInt, emit]
  · simp [Event.time_stamp, callF64, emit]
  · obtain ⟨rest, h⟩ := checkException_state_trace (Event.context_ref ev) es
      (emit (FCall.set_cancel_bubble ev.method_pointer ev.ptr (i32_from v) es.ptr) s)
    exact ⟨rest, by simpa [Event.set_cancel_bubble, callBool, emit, List.append_assoc] using h⟩
  · obtain ⟨rest, h⟩ := checkException_state_trace (Event.context_ref ev) es
      (emit (FCall.prevent_default ev.method_pointer ev.ptr es.ptr) s)
    exact ⟨rest, by simpa [Event.prevent_default, emit, List.append_assoc] using h⟩

theorem claim_C2_witness : C2Prop evW (stO oracleDisposed) :=
  claim_C2 evW (stO oracleDisposed)

/-- Claim C2 as stated is false: on this concrete Event whose shared
disposal status reads disposed, the accessor `bubbles` and the fallible
`set_cancel_bubble` complete normally and forward the call to the foreign
side (their traces gain the forwarded call) instead of triggering the
fatal-abort path. -/
theorem claim_C2_counterexample :
    (stO oracleDisposed).oracle.disposedFlag evW.status = true ∧
    Event.bubbles evW (stO oracleDisposed) =
      (true, ⟨oracleDisposed, [FCall.bubbles 4 2]⟩) ∧
    Event.set_cancel_bubble evW true esW (stO oracleDisposed) =
      Res.ok (Except.ok ())
        ⟨oracleDisposed, [FCall.set_cancel_bubble 4 2 1 9, FCall.has_exception 9]⟩ :=
  ⟨rfl, rfl, rfl⟩

/-- C3: on a live source Event, a downcast whose dispatcher reply is a
null handle returns the typed mismatch error and constructs nothing; a
non-null (handle, table, status) reply yields the refinement built from
that triple and the source's context reference. -/
theorem claim_C3 (ev : Event) (s : St)
    (hlive : s.oracle.disposedFlag ev.status = false) : C3Prop ev s := by
  refine ⟨⟨fun h0 => ?_, fun h0 hmp => ?_⟩, ⟨fun h0 => ?_, fun h0 hmp => ?_⟩,
    ⟨fun h0 => ?_, fun h0 hmp => ?_⟩⟩
  · simp [Event.as_custom_event, hlive, callRV, h0]
  · simp [Event.as_custom_event, hlive, callRV, h0, hmp, CustomEvent.construct,
      Event.construct]
  · simp [Event.as_close_event, hlive, callRV, h0]
  · simp [Event.as_close_event, hlive, callRV, h0, hmp, CloseEvent.construct,
      Event.construct]
  · simp [Event.as_focus_event, hlive, callRV, h0]
  · simp [Event.as_focus_event, hlive, callRV, h0, hmp, FocusEvent.construct,
      UIEvent.construct, subTableAddr, Event.construct]

theorem claim_C3_witness :
    (stO oracleA).oracle.disposedFlag evW.status = false ∧ C3Prop evW (stO oracleA) :=
  ⟨rfl, claim_C3 evW (stO oracleA) rfl⟩

/-- C4: append_child and remove_child forward the caller's handle and the
argument's handle with the exception state, then check it: on exception
they return the context-rendered failure and construct nothing; otherwise
they return the caller-specified generic capability built from the
returned (handle, table) pair. -/
theorem claim_C4 (α : Type) [EventTargetMethods α] (self : Node) (n : α)
    (es : ExceptionState) (s : St) (hctx : self.event_target.context ≠ 0) :
    C4Prop α self n es s := by
  have href : EventTarget.context_ref self.event_target = some self.event_target.context := by
    simp [EventTarget.context_ref, hctx]
  refine ⟨⟨fun hf => ?_, fun hf t ht => ?_⟩, ⟨fun hf => ?_, fun hf t ht => ?_⟩⟩
  · simp [Node.append_child, callRV, callBool, callStr, emit, href, hf, List.append_assoc]
  · simp [Node.append_child, callRV, callBool, callStr, emit, href, hf, ht,
      List.append_assoc]
  · simp [Node.remove_child, callRV, callBool, callStr, emit, href, hf, List.append_assoc]
  · simp [Node.remove_child, callRV, callBool, callStr, emit, href, hf, ht,
      List.append_assoc]

theorem claim_C4_witness :
    nodeW.event_target.context ≠ 0 ∧ C4Prop Node nodeW nodeArgW esW (stO oracleA) :=
  ⟨by decide, claim_C4 Node nodeW nodeArgW esW (stO oracleA) (by decide)⟩

theorem resStep_fst {α : Type} (r : Res α) : (resStep r).1 = r.state := rfl

theorem releaseCount_append (t u : List FCall) :
    releaseCount (t ++ u) = releaseCount t + releaseCount u := by
  simp [releaseCount, List.filter_append]

theorem releaseCount_release (t p : Nat) : releaseCount [FCall.release t p] = 1 := rfl

/-- The exception tail never issues a release call. -/
theorem releaseCount_checkException (ctxr : Option Nat) (es : ExceptionState) (s : St) :
    releaseCount (checkException ctxr es s).state.trace = releaseCount s.trace := by
  unfold checkException
  by_cases h : s.oracle.boolR s.trace.length (FCall.has_exception es.ptr)
  · cases ctxr with
    | none => simp [h, Res.state, emit, releaseCount_append, releaseCount, FCall.isRelease]
    | some ctx => simp [h, Res.state, emit, releaseCount_append, releaseCount, FCall.isRelease]
  · simp [h, Res.state, emit, releaseCount_append, releaseCount, FCall.isRelease]

/-- No Event operation issues a release call. -/
theorem runOp_releaseCount (self : Event) (op : EventOp) (s : St) :
    releaseCount (runOp self op s).1.trace = releaseCount s.trace := by
  cases op with
  | bubbles =>
    simp [runOp, Event.bubbles, callInt, emit, releaseCount_append, releaseCount,
      FCall.isRelease]
  | cancel_bubble =>
    simp [runOp, Event.cancel_bubble, callInt, emit, releaseCount_append, releaseCount,
      FCall.isRelease]
  | cancelable =>
    simp [runOp, Event.cancelable, callInt, emit, releaseCount_append, releaseCount,
      FCall.isRelease]
  | default_prevented =>
    simp [runOp, Event.default_prevented, callInt, emit, releaseCount_append, releaseCount,
      FCall.isRelease]
  | is_trusted =>
    simp [runOp, Event.is_trusted, callInt, emit, releaseCount_append, releaseCount,
      FCall.isRelease]
  | time_stamp =>
    simp [runOp, Event.time_stamp, callF64, emit, releaseCount_append, releaseCount,
      FCall.isRelease]
  | type_ =>
    simp only [runOp, resStep_fst]
    unfold Event.type_
    dsimp only
    split <;>
      simp [Res.state, callBytes, emit, releaseCount_append, releaseCount, FCall.isRelease]
  | current_target =>
    simp only [runOp, resStep_fst]
    unfold Event.current_target
    split <;>
      simp [Res.state, callRV, emit, releaseCount_append, releaseCount, FCall.isRelease]
  | src_element =>
    simp only [runOp, resStep_fst]
    unfold Event.src_element
    split <;>
      simp [Res.state, callRV, emit, releaseCount_append, releaseCount, FCall.isRelease]
  | target =>
    simp only [runOp, resStep_fst]
    unfold Event.target
    split <;>
      simp [Res.state, callRV, emit, releaseCount_append, releaseCount, FCall.isRelease]
  | set_cancel_bubble v es =>
    simp only [runOp, resStep_fst, Event.set_cancel_bubble]
    rw [releaseCount_checkException]
    simp [callBool, emit, releaseCount_append, releaseCount, FCall.isRelease]
  | init_event ty b c es =>
    simp only [runOp, resStep_fst]
    unfold Event.init_event
    split
    · simp [Res.state]
    · rw [releaseCount_checkException]
      simp [emit, releaseCount_append, releaseCount, FCall.isRelease]
  | prevent_default es =>
    simp only [runOp, resStep_fst, Event.prevent_default]
    rw [releaseCount_checkException]
    simp [emit, releaseCount_append, releaseCount, FCall.isRelease]
  | stop_immediate_propagation es =>
    simp only [runOp, resStep_fst, Event.stop_immediate_propagation]
    rw [releaseCount_checkException]
    simp [emit, releaseCount_append, releaseCount, FCall.isRelease]
  | stop_propagation es =>
    simp only [runOp, resStep_fst, Event.stop_propagation]
    rw [releaseCount_checkException]
    simp [emit, releaseCount_append, releaseCount, FCall.isRelease]
  | as_custom_event =>
    simp only [runOp, resStep_fst]
    unfold Event.as_custom_event
    split
    · rfl
    · dsimp only
      split
      · simp [Res.state, callRV, emit, releaseCount_append, releaseCount, FCall.isRelease]
      · split <;>
          simp [Res.state, callRV, emit, releaseCount_append, releaseCount, FCall.isRelease]
  | as_close_event =>
    simp only [runOp, resStep_fst]
    unfold Event.as_close_event
    split
    · rfl
    · dsimp only
      split
      · simp [Res.state, callRV, emit, releaseCount_append, releaseCount, FCall.isRelease]
      · split <;>
          simp [Res.state, callRV, emit, releaseCount_append, releaseCount, FCall.isRelease]
  | as_focus_event =>
    simp only [runOp, resStep_fst]
    unfold Event.as_focus_event
    split
    · rfl
    · dsimp only
      split
      · simp [Res.state, callRV, emit, releaseCount_append, releaseCount, FCall.isRelease]
      · split <;>
          simp [Res.state, callRV, emit, releaseCount_append, releaseCount, FCall.isRelease]

/-- No sequence of Event operations issues a release call. -/
theorem runOps_releaseCount (self : Event) (ops : List EventOp) (s : St) :
    releaseCount (runOps self ops s).trace = releaseCount s.trace := by
  induction ops generalizing s with
  | nil => rfl
  | cons op rest ih =>
    unfold runOps
    by_cases h : (runOp self op s).2
    · simp [h, runOp_releaseCount]
    · simp [h, ih, runOp_releaseCount]

/-- No CloseEvent operation issues a release call. -/
theorem runCloseOp_releaseCount (self : CloseEvent) (op : CloseEventOp) (s : St) :
    releaseCount (runCloseOp self op s).1.trace = releaseCount s.trace := by
  cases op with
  | base op => exact runOp_releaseCount self.event op s
  | code =>
    simp [runCloseOp, CloseEvent.code, callInt, emit, releaseCount_append, releaseCount,
      FCall.isRelease]
  | reason =>
    simp only [runCloseOp, resStep_fst]
    unfold CloseEvent.reason
    dsimp only
    split <;>
      simp [Res.state, callBytes, emit, releaseCount_append, releaseCount, FCall.isRelease]
  | was_clean =>
    simp [runCloseOp, CloseEvent.was_clean, callInt, emit, releaseCount_append, releaseCount,
      FCall.isRelease]

/-- No sequence of CloseEvent operations issues a release call. -/
theorem runCloseOps_releaseCount (self : CloseEvent) (ops : List CloseEventOp) (s : St) :
    releaseCount (runCloseOps self ops s).trace = releaseCount s.trace := by
  induction ops generalizing s with
  | nil => rfl
  | cons op rest ih =>
    unfold runCloseOps
    by_cases h : (runCloseOp self op s).2
    · simp [h, runCloseOp_releaseCount]
    · simp [h, ih, runCloseOp_releaseCount]

/-- No FocusEvent operation issues a release call. -/
theorem runFocusOp_releaseCount (self : FocusEvent) (op : FocusEventOp) (s : St) :
    releaseCount (runFocusOp self op s).1.trace = releaseCount s.trace := by
  cases op with
  | base op => exact runOp_releaseCount self.ui_event.event op s
  | detail =>
    simp [runFocusOp, UIEvent.detail, callF64, emit, releaseCount_append, releaseCount,
      FCall.isRelease]
  | view =>
    simp only [runFocusOp, resStep_fst]
    unfold UIEvent.view
    split <;>
      simp [Res.state, callRV, emit, releaseCount_append, releaseCount, FCall.isRelease]
  | which =>
    simp [runFocusOp, UIEvent.which, callF64, emit, releaseCount_append, releaseCount,
      FCall.isRelease]
  | related_target =>
    simp only [runFocusOp, resStep_fst]
    unfold FocusEvent.related_target
    split <;>
      simp [Res.state, callRV, emit, releaseCount_append, releaseCount, FCall.isRelease]

/-- No sequence of FocusEvent operations issues a release call. -/
theorem runFocusOps_releaseCount (self : FocusEvent) (ops : List FocusEventOp) (s : St) :
    releaseCount (runFocusOps self ops s).trace = releaseCount s.trace := by
  induction ops generalizing s with
  | nil => rfl
  | cons op rest ih =>
    unfold runFocusOps
    by_cases h : (runFocusOp self op s).2
    · simp [h, runFocusOp_releaseCount]
    · simp [h, ih, runFocusOp_releaseCount]

/-- C5: over a whole capability-object lifetime (any sequence of
operations, then the destructor glue at scope end) exactly one release
call is issued, for Event and for refinements whose embedded parent chain
bottoms out in an Event. -/
theorem claim_C5 (ev : Event) (ce : CloseEvent) (fe : FocusEvent) (ops1 : List EventOp)
    (ops2 : List CloseEventOp) (ops3 : List FocusEventOp) (s1 s2 s3 : St) :
    releaseCount (Event.lifetime ev ops1 s1).trace = releaseCount s1.trace + 1 ∧
    releaseCount (CloseEvent.lifetime ce ops2 s2).trace = releaseCount s2.trace + 1 ∧
    releaseCount (FocusEvent.lifetime fe ops3 s3).trace = releaseCount s3.trace + 1 := by
  refine ⟨?_, ?_, ?_⟩
  · unfold Event.lifetime Event.dropGlue
    simp [emit, releaseCount_append, releaseCount_release, runOps_releaseCount]
  · unfold CloseEvent.lifetime CloseEvent.dropGlue Event.dropGlue
    simp [emit, releaseCount_append, releaseCount_release, runCloseOps_releaseCount]
  · unfold FocusEvent.lifetime FocusEvent.dropGlue UIEvent.dropGlue Event.dropGlue
    simp [emit, releaseCount_append, releaseCount_release, runFocusOps_releaseCount]

/-- C6 (amended): each boolean- or number-returning read accessor is a
direct, non-failing single forward to the foreign side; the string
accessors (`type_`, `CloseEvent::reason`) forward and then panic exactly
when the returned buffer is not valid UTF-8, returning the decoded string
for every valid buffer. -/
theorem claim_C6 (ev : Event) (ce : CloseEvent) (s : St) :
    Event.bubbles ev s =
      ((s.oracle.intR s.trace.length (FCall.bubbles ev.method_pointer ev.ptr) != 0),
       emit (FCall.bubbles ev.method_pointer ev.ptr) s) ∧
    Event.cancel_bubble ev s =
      ((s.oracle.intR s.trace.length (FCall.cancel_bubble ev.method_pointer ev.ptr) != 0),
       emit (FCall.cancel_bubble ev.method_pointer ev.ptr) s) ∧
    Event.cancelable ev s =
      ((s.oracle.intR s.trace.length (FCall.cancelable ev.method_pointer ev.ptr) != 0),
       emit (FCall.cancelable ev.method_pointer ev.ptr) s) ∧
    Event.default_prevented ev s =
      ((s.oracle.intR s.trace.length (FCall.default_prevented ev.method_pointer ev.ptr) != 0),
       emit (FCall.default_prevented ev.method_pointer ev.ptr) s) ∧
    Event.is_trusted ev s =
      ((s.oracle.intR s.trace.length (FCall.is_trusted ev.method_pointer ev.ptr) != 0),
       emit (FCall.is_trusted ev.method_pointer ev.ptr) s) ∧
    Event.time_stamp ev s =
      (s.oracle.f64R s.trace.length (FCall.time_stamp ev.method_pointer ev.ptr),
       emit (FCall.time_stamp ev.method_pointer ev.ptr) s) ∧
    CloseEvent.was_clean ce s =
      ((s.oracle.intR s.trace.length
          (FCall.was_clean ce.method_pointer (CloseEvent.ptrv ce)) != 0),
       emit (FCall.was_clean ce.method_pointer (CloseEvent.ptrv ce)) s) ∧
    CloseEvent.code ce s =
      (s.oracle.intR s.trace.length (FCall.code ce.method_pointer (CloseEvent.ptrv ce)),
       emit (FCall.code ce.method_pointer (CloseEvent.ptrv ce)) s) ∧
    (Event.type_ ev s =
      if utf8Valid (s.oracle.bytesR s.trace.length (FCall.type_ ev.method_pointer ev.ptr)) then
        Res.ok (s.oracle.bytesR s.trace.length (FCall.type_ ev.method_pointer ev.ptr))
          (emit (FCall.type_ ev.method_pointer ev.ptr) s)
      else Res.panic utf8UnwrapMsg (emit (FCall.type_ ev.method_pointer ev.ptr) s)) ∧
    (CloseEvent.reason ce s =
      if utf8Valid (s.oracle.bytesR s.trace.length
          (FCall.reason ce.method_pointer (CloseEvent.ptrv ce))) then
        Res.ok (s.oracle.bytesR s.trace.length
            (FCall.reason ce.method_pointer (CloseEvent.ptrv ce)))
          (emit (FCall.reason ce.method_pointer (CloseEvent.ptrv ce)) s)
      else Res.panic utf8UnwrapMsg
        (emit (FCall.reason ce.method_pointer (CloseEvent.ptrv ce)) s)) := by
  refine ⟨rfl, rfl, rfl, rfl, rfl, rfl, rfl, rfl, ?_, ?_⟩
  · by_cases hu : utf8Valid (s.oracle.bytesR s.trace.length
      (FCall.type_ ev.method_pointer ev.ptr))
    · simp [Event.type_, callBytes, strFromUtf8, hu]
    · simp [Event.type_, callBytes, strFromUtf8, hu]
  · by_cases hu : utf8Valid (s.oracle.bytesR s.trace.length
      (FCall.reason ce.method_pointer (CloseEvent.ptrv ce)))
    · simp [CloseEvent.reason, callBytes, strFromUtf8, hu]
    · simp [CloseEvent.reason, callBytes, strFromUtf8, hu]

/-- Claim C6 as stated is false: on this concrete live Event the read
accessor `type_` does not return a value but panics, because the foreign
side replied with the single byte 0xFF, which is not valid UTF-8. -/
theorem claim_C6_counterexample :
    utf8Valid [255] = false ∧
    Event.type_ evW (stO oracleBadUtf8) =
      Res.panic utf8UnwrapMsg ⟨oracleBadUtf8, [FCall.type_ 4 2]⟩ :=
  ⟨rfl, rfl⟩

/-- C7: every parent operation re-exposed on a refinement through the
trait hierarchy returns exactly the result of invoking the same operation
on the embedded parent capability object, for every CloseEvent and
FocusEvent, across the EventMethods, CloseEventMethods and UIEventMethods
trait layers. -/
theorem claim_C7 (ce : CloseEvent) (fe : FocusEvent) (v b cb : Bool) (ty : List Nat)
    (es : ExceptionState) (s : St) :
    (EventMethods.bubbles ce s = Event.bubbles ce.event s) ∧
    (EventMethods.cancel_bubble ce s = Event.cancel_bubble ce.event s) ∧
    (EventMethods.set_cancel_bubble ce v es s = Event.set_cancel_bubble ce.event v es s) ∧
    (EventMethods.cancelable ce s = Event.cancelable ce.event s) ∧
    (EventMethods.current_target ce s = Event.current_target ce.event s) ∧
    (EventMethods.default_prevented ce s = Event.default_prevented ce.event s) ∧
    (EventMethods.src_element ce s = Event.src_element ce.event s) ∧
    (EventMethods.target ce s = Event.target ce.event s) ∧
    (EventMethods.is_trusted ce s = Event.is_trusted ce.event s) ∧
    (EventMethods.time_stamp ce s = Event.time_stamp ce.event s) ∧
    (EventMethods.type_ ce s = Event.type_ ce.event s) ∧
    (EventMethods.init_event ce ty b cb es s = Event.init_event ce.event ty b cb es s) ∧
    (EventMethods.prevent_default ce es s = Event.prevent_default ce.event es s) ∧
    (EventMethods.stop_immediate_propagation ce es s =
       Event.stop_immediate_propagation ce.event es s) ∧
    (EventMethods.stop_propagation ce es s = Event.stop_propagation ce.event es s) ∧
    (EventMethods.as_event ce = ce.event) ∧
    (CloseEventMethods.code ce s = CloseEvent.code ce s) ∧
    (CloseEventMethods.reason ce s = CloseEvent.reason ce s) ∧
    (CloseEventMethods.was_clean ce s = CloseEvent.was_clean ce s) ∧
    (CloseEventMethods.as_close_event ce = ce) ∧
    (EventMethods.bubbles fe s = Event.bubbles fe.ui_event.event s) ∧
    (EventMethods.cancel_bubble fe s = Event.cancel_bubble fe.ui_event.event s) ∧
    (EventMethods.set_cancel_bubble fe v es s =
       Event.set_cancel_bubble fe.ui_event.event v es s) ∧
    (EventMethods.cancelable fe s = Event.cancelable fe.ui_event.event s) ∧
    (EventMethods.current_target fe s = Event.current_target fe.ui_event.event s) ∧
    (EventMethods.default_prevented fe s = Event.default_prevented fe.ui_event.event s) ∧
    (EventMethods.src_element fe s = Event.src_element fe.ui_event.event s) ∧
    (EventMethods.target fe s = Event.target fe.ui_event.event s) ∧
    (EventMethods.is_trusted fe s = Event.is_trusted fe.ui_event.event s) ∧
    (EventMethods.time_stamp fe s = Event.time_stamp fe.ui_event.event s) ∧
    (EventMethods.type_ fe s = Event.type_ fe.ui_event.event s) ∧
    (EventMethods.init_event fe ty b cb es s =
       Event.init_event fe.ui_event.event ty b cb es s) ∧
    (EventMethods.prevent_default fe es s = Event.prevent_default fe.ui_event.event es s) ∧
    (EventMethods.stop_immediate_propagation fe es s =
       Event.stop_immediate_propagation fe.ui_event.event es s) ∧
    (EventMethods.stop_propagation fe es s = Event.stop_propagation fe.ui_event.event es s) ∧
    (EventMethods.as_event fe = fe.ui_event.event) ∧
    (UIEventMethods.detail fe s = UIEvent.detail fe.ui_event s) ∧
    (UIEventMethods.view fe s = UIEvent.view fe.ui_event s) ∧
    (UIEventMethods.which fe s = UIEvent.which fe.ui_event s) ∧
    (UIEventMethods.as_ui_event fe = fe.ui_event) :=
  ⟨rfl, rfl, rfl, rfl, rfl, rfl, rfl, rfl, rfl, rfl, rfl, rfl, rfl, rfl, rfl, rfl,
   rfl, rfl, rfl, rfl, rfl, rfl, rfl, rfl, rfl, rfl, rfl, rfl, rfl, rfl, rfl, rfl,
   rfl, rfl, rfl, rfl, rfl, rfl, rfl, rfl⟩

/-- C8: booleans are normalized in both directions at the boundary. -/
theorem claim_C8 (ev : Event) (ce : CloseEvent) (v b c : Bool) (ty : List Nat)
    (es : ExceptionState) (s : St) : C8Prop ev ce v b c ty es s := by
  refine ⟨?_, ?_, ?_, ?_, ?_, ?_, ⟨rfl, rfl⟩, ?_, fun hty => ?_⟩
  · simp [Event.bubbles, callInt, bne_iff_ne]
  · simp [Event.cancel_bubble, callInt, bne_iff_ne]
  · simp [Event.cancelable, callInt, bne_iff_ne]
  · simp [Event.default_prevented, callInt, bne_iff_ne]
  · simp [Event.is_trusted, callInt, bne_iff_ne]
  · simp [CloseEvent.was_clean, callInt, bne_iff_ne]
  · obtain ⟨rest, h⟩ := checkException_state_trace (Event.context_ref ev) es
      (emit (FCall.set_cancel_bubble ev.method_pointer ev.ptr (i32_from v) es.ptr) s)
    exact ⟨rest, by simpa [Event.set_cancel_bubble, callBool, emit, List.append_assoc] using h⟩
  · have hcs : cstringNew ty = some ty := by unfold cstringNew; rw [hty]; rfl
    obtain ⟨rest, h⟩ := checkException_state_trace (Event.context_ref ev) es
      (emit (FCall.init_event ev.method_pointer ev.ptr ty
        (i32_from b) (i32_from c) es.ptr) s)
    refine ⟨rest, ?_⟩
    unfold Event.init_event
    rw [hcs]
    simpa [emit, List.append_assoc] using h

theorem claim_C8_witness : C8Prop evW ceW true false true [104] esW (stO oracleA) :=
  claim_C8 evW ceW true false true [104] esW (stO oracleA)

/-- C9: `init_event` panics on a type name containing an interior NUL
byte before making any foreign call, and reaches the foreign call for
every NUL-free type name. -/
theorem claim_C9 (ev : Event) (ty : List Nat) (b c : Bool) (es : ExceptionState) (s : St) :
    C9Prop ev ty b c es s := by
  refine ⟨fun hty => ?_, fun hty => ?_⟩
  · have hcs : cstringNew ty = none := by unfold cstringNew; rw [hty]; rfl
    unfold Event.init_event
    rw [hcs]
  · have hcs : cstringNew ty = some ty := by unfold cstringNew; rw [hty]; rfl
    obtain ⟨rest, h⟩ := checkException_state_trace (Event.context_ref ev) es
      (emit (FCall.init_event ev.method_pointer ev.ptr ty
        (i32_from b) (i32_from c) es.ptr) s)
    refine ⟨rest, ?_⟩
    unfold Event.init_event
    rw [hcs]
    simpa [emit, List.append_assoc] using h

theorem claim_C9_witness :
    C9Prop evW [104, 0, 105] true false esW (stO oracleA) ∧
    C9Prop evW [104, 105] true false esW (stO oracleA) :=
  ⟨claim_C9 evW [104, 0, 105] true false esW (stO oracleA),
   claim_C9 evW [104, 105] true false esW (stO oracleA)⟩

theorem forwardsPtr_of_trace (p : Nat) (c : FCall) (rest : List FCall) (s after : St)
    (h : after.trace = s.trace ++ c :: rest) (hp : FCall.selfPtr c = p) :
    ForwardsPtr p s after :=
  Or.inr ⟨c, rest, h, hp⟩

/-- Every Event operation either makes no foreign call or forwards the
Event's own handle first. -/
theorem runOp_forwardsPtr (e : Event) (op : EventOp) (s : St) :
    ForwardsPtr e.ptr s (runOp e op s).1 := by
  cases op with
  | bubbles =>
    exact forwardsPtr_of_trace _ (FCall.bubbles e.method_pointer e.ptr) [] _ _
      (by simp [runOp, Event.bubbles, callInt, emit]) rfl
  | cancel_bubble =>
    exact forwardsPtr_of_trace _ (FCall.cancel_bubble e.method_pointer e.ptr) [] _ _
      (by simp [runOp, Event.cancel_bubble, callInt, emit]) rfl
  | cancelable =>
    exact forwardsPtr_of_trace _ (FCall.cancelable e.method_pointer e.ptr) [] _ _
      (by simp [runOp, Event.cancelable, callInt, emit]) rfl
  | default_prevented =>
    exact forwardsPtr_of_trace _ (FCall.default_prevented e.method_pointer e.ptr) [] _ _
      (by simp [runOp, Event.default_prevented, callInt, emit]) rfl
  | is_trusted =>
    exact forwardsPtr_of_trace _ (FCall.is_trusted e.method_pointer e.ptr) [] _ _
      (by simp [runOp, Event.is_trusted, callInt, emit]) rfl
  | time_stamp =>
    exact forwardsPtr_of_trace _ (FCall.time_stamp e.method_pointer e.ptr) [] _ _
      (by simp [runOp, Event.time_stamp, callF64, emit]) rfl
  | type_ =>
    refine forwardsPtr_of_trace _ (FCall.type_ e.method_pointer e.ptr) [] _ _ ?_ rfl
    simp only [runOp, resStep_fst]
    unfold Event.type_
    dsimp only
    split <;> simp [Res.state, callBytes, emit]
  | current_target =>
    refine forwardsPtr_of_trace _ (FCall.current_target e.method_pointer e.ptr) [] _ _ ?_ rfl
    simp only [runOp, resStep_fst]
    unfold Event.current_target
    dsimp only
    split <;> simp [Res.state, callRV, emit]
  | src_element =>
    refine forwardsPtr_of_trace _ (FCall.src_element e.method_pointer e.ptr) [] _ _ ?_ rfl
    simp only [runOp, resStep_fst]
    unfold Event.src_element
    dsimp only
    split <;> simp [Res.state, callRV, emit]
  | target =>
    refine forwardsPtr_of_trace _ (FCall.target e.method_pointer e.ptr) [] _ _ ?_ rfl
    simp only [runOp, resStep_fst]
    unfold Event.target
    dsimp only
    split <;> simp [Res.state, callRV, emit]
  | set_cancel_bubble v es =>
    obtain ⟨rest, h⟩ := checkException_state_trace (Event.context_ref e) ⟨es⟩
      (emit (FCall.set_cancel_bubble e.method_pointer e.ptr (i32_from v) es) s)
    refine forwardsPtr_of_trace _
      (FCall.set_cancel_bubble e.method_pointer e.ptr (i32_from v) es) rest _ _ ?_ rfl
    simpa [runOp, resStep_fst, Event.set_cancel_bubble, callBool, emit,
      List.append_assoc] using h
  | init_event ty b c es =>
    by_cases hty : ty.contains 0 = true
    · left
      have hcs : cstringNew ty = none := by unfold cstringNew; rw [hty]; rfl
      simp [runOp, resStep_fst, Event.init_event, hcs, Res.state]
    · have hty' : ty.contains 0 = false := by simpa using hty
      have hcs : cstringNew ty = some ty := by unfold cstringNew; rw [hty']; rfl
      obtain ⟨rest, h⟩ := checkException_state_trace (Event.context_ref e) ⟨es⟩
        (emit (FCall.init_event e.method_pointer e.ptr ty
          (i32_from b) (i32_from c) es) s)
      refine forwardsPtr_of_trace _
        (FCall.init_event e.method_pointer e.ptr ty (i32_from b) (i32_from c) es)
        rest _ _ ?_ rfl
      simp only [runOp, resStep_fst]
      unfold Event.init_event
      rw [hcs]
      simpa [emit, List.append_assoc] using h
  | prevent_default es =>
    obtain ⟨rest, h⟩ := checkException_state_trace (Event.context_ref e) ⟨es⟩
      (emit (FCall.prevent_default e.method_pointer e.ptr es) s)
    refine forwardsPtr_of_trace _ (FCall.prevent_default e.method_pointer e.ptr es)
      rest _ _ ?_ rfl
    simpa [runOp, resStep_fst, Event.prevent_default, emit, List.append_assoc] using h
  | stop_immediate_propagation es =>
    obtain ⟨rest, h⟩ := checkException_state_trace (Event.context_ref e) ⟨es⟩
      (emit (FCall.stop_immediate_propagation e.method_pointer e.ptr es) s)
    refine forwardsPtr_of_trace _
      (FCall.stop_immediate_propagation e.method_pointer e.ptr es) rest _ _ ?_ rfl
    simpa [runOp, resStep_fst, Event.stop_immediate_propagation, emit,
      List.append_assoc] using h
  | stop_propagation es =>
    obtain ⟨rest, h⟩ := checkException_state_trace (Event.context_ref e) ⟨es⟩
      (emit (FCall.stop_propagation e.method_pointer e.ptr es) s)
    refine forwardsPtr_of_trace _ (FCall.stop_propagation e.method_pointer e.ptr es)
      rest _ _ ?_ rfl
    simpa [runOp, resStep_fst, Event.stop_propagation, emit, List.append_assoc] using h
  | as_custom_event =>
    by_cases hd : s.oracle.disposedFlag e.status = true
    · left
      simp [runOp, resStep_fst, Event.as_custom_event, hd, Res.state]
    · refine forwardsPtr_of_trace _
        (FCall.dynamic_to e.method_pointer e.ptr customEventTag) [] _ _ ?_ rfl
      simp only [runOp, resStep_fst]
      unfold Event.as_custom_event
      rw [if_neg hd]
      dsimp only
      split
      · simp [Res.state, callRV, emit]
      · split <;> simp [Res.state, callRV, emit]
  | as_close_event =>
    by_cases hd : s.oracle.disposedFlag e.status = true
    · left
      simp [runOp, resStep_fst, Event.as_close_event, hd, Res.state]
    · refine forwardsPtr_of_trace _
        (FCall.dynamic_to e.method_pointer e.ptr closeEventTag) [] _ _ ?_ rfl
      simp only [runOp, resStep_fst]
      unfold Event.as_close_event
      rw [if_neg hd]
      dsimp only
      split
      · simp [Res.state, callRV, emit]
      · split <;> simp [Res.state, callRV, emit]
  | as_focus_event =>
    by_cases hd : s.oracle.disposedFlag e.status = true
    · left
      simp [runOp, resStep_fst, Event.as_focus_event, hd, Res.state]
    · refine forwardsPtr_of_trace _
        (FCall.dynamic_to e.method_pointer e.ptr focusEventTag) [] _ _ ?_ rfl
      simp only [runOp, resStep_fst]
      unfold Event.as_focus_event
      rw [if_neg hd]
      dsimp only
      split
      · simp [Res.state, callRV, emit]
      · split <;> simp [Res.state, callRV, emit]

/-- Every CloseEvent operation either makes no foreign call or forwards
the shared handle first. -/
theorem runCloseOp_forwardsPtr (ce : CloseEvent) (op : CloseEventOp) (s : St) :
    ForwardsPtr ce.event.ptr s (runCloseOp ce op s).1 := by
  cases op with
  | base op => exact runOp_forwardsPtr ce.event op s
  | code =>
    exact forwardsPtr_of_trace _ (FCall.code ce.method_pointer (CloseEvent.ptrv ce)) [] _ _
      (by simp [runCloseOp, CloseEvent.code, callInt, emit]) rfl
  | reason =>
    refine forwardsPtr_of_trace _
      (FCall.reason ce.method_pointer (CloseEvent.ptrv ce)) [] _ _ ?_ rfl
    simp only [runCloseOp, resStep_fst]
    unfold CloseEvent.reason
    dsimp only
    split <;> simp [Res.state, callBytes, emit]
  | was_clean =>
    exact forwardsPtr_of_trace _
      (FCall.was_clean ce.method_pointer (CloseEvent.ptrv ce)) [] _ _
      (by simp [runCloseOp, CloseEvent.was_clean, callInt, emit]) rfl

/-- Every FocusEvent operation either makes no foreign call or forwards
the shared handle first. -/
theorem runFocusOp_forwardsPtr (fe : FocusEvent) (op : FocusEventOp) (s : St) :
    ForwardsPtr fe.ui_event.event.ptr s (runFocusOp fe op s).1 := by
  cases op with
  | base op => exact runOp_forwardsPtr fe.ui_event.event op s
  | detail =>
    exact forwardsPtr_of_trace _
      (FCall.detail fe.ui_event.method_pointer (UIEvent.ptrv fe.ui_event)) [] _ _
      (by simp [runFocusOp, UIEvent.detail, callF64, emit]) rfl
  | which =>
    exact forwardsPtr_of_trace _
      (FCall.which fe.ui_event.method_pointer (UIEvent.ptrv fe.ui_event)) [] _ _
      (by simp [runFocusOp, UIEvent.which, callF64, emit]) rfl
  | view =>
    refine forwardsPtr_of_trace _
      (FCall.view fe.ui_event.method_pointer (UIEvent.ptrv fe.ui_event)) [] _ _ ?_ rfl
    simp only [runFocusOp, resStep_fst]
    unfold UIEvent.view
    dsimp only
    split <;> simp [Res.state, callRV, emit]
  | related_target =>
    refine forwardsPtr_of_trace _
      (FCall.related_target fe.method_pointer (FocusEvent.ptrv fe)) [] _ _ ?_ rfl
    simp only [runFocusOp, resStep_fst]
    unfold FocusEvent.related_target
    dsimp only
    split <;> simp [Res.state, callRV, emit]

/-- C10: a refinement built by the generated constructor shares its
handle, context reference and disposal status unchanged through the whole
composition chain, and every operation on it forwards that same handle. -/
theorem claim_C10 (p ctx mp st : Nat) (hmp : mp ≠ 0) : C10Prop p ctx mp st := by
  have hsub : subTableAddr mp ≠ 0 := by unfold subTableAddr; omega
  constructor
  · intro ce hce
    have hcon : CloseEvent.construct p ctx mp st =
        some ⟨Event.construct p ctx (subTableAddr mp) st, mp⟩ := by
      unfold CloseEvent.construct
      rw [if_neg hmp]
    rw [hcon] at hce
    have hce' : ce = ⟨Event.construct p ctx (subTableAddr mp) st, mp⟩ := by
      injection hce with h
      exact h.symm
    subst hce'
    exact ⟨rfl, rfl, rfl, rfl, rfl, rfl, fun op s => runCloseOp_forwardsPtr _ op s⟩
  · intro fe hfe
    have hcon : FocusEvent.construct p ctx mp st =
        some ⟨⟨Event.construct p ctx (subTableAddr (subTableAddr mp)) st,
          subTableAddr mp⟩, mp⟩ := by
      unfold FocusEvent.construct UIEvent.construct
      rw [if_neg hmp, if_neg hsub]
      rfl
    rw [hcon] at hfe
    have hfe' : fe = ⟨⟨Event.construct p ctx (subTableAddr (subTableAddr mp)) st,
        subTableAddr mp⟩, mp⟩ := by
      injection hfe with h
      exact h.symm
    subst hfe'
    exact ⟨rfl, rfl, rfl, rfl, rfl, rfl, rfl, rfl,
      fun op s => runFocusOp_forwardsPtr _ op s⟩

theorem claim_C10_witness : (40 : Nat) ≠ 0 ∧ C10Prop 2 3 40 6 :=
  ⟨by decide, claim_C10 2 3 40 6 (by decide)⟩
